import Mathlib

/-!
# Verification of the csibroker lifecycle state machine

This file gives a shallow embedding of `src/csibroker/csibroker.go` (the
Broker's lifecycle operations Provision / Deprovision / Bind / Unbind, the
probe-once latch, the deferred store-save pattern, the parameter evaluators
and the fingerprint reconstruction) and proves properties of that embedding.

Modelling notes, applying throughout:

* Go `map[string]interface{}` values decoded from JSON are modelled by the
  mutually inductive `Json` / `JsonList` / `JsonFields` types below; a
  decoded parameter map is a `JsonFields` value (Go maps cannot hold
  duplicate keys, so first-match lookup is adequate).
* The external collaborators (the `brokerstore.Store`, the services
  registry's identity/controller clients and the CSI plugin RPCs) are not
  part of this repository; their per-call outcomes are supplied by an `Env`
  record, and the record store itself is modelled from the spec (Section 3
  and Section 6 of spec.md) as an association-list key-value store.
* RPCs actually issued, and invocations of the store's `Save`, are recorded
  in an event list so that claims about which remote calls happen can be
  stated.
* Machine-level concerns that no claim touches are simplified: logging is
  dropped, `context.Context` is dropped, the `Secrets` map set by
  Deprovision is dropped, and `csi.Volume` is modelled by the two fields
  the broker reads (`volume_id`, `volume_context`), assuming the plugin
  returned a non-nil volume descriptor.
* A Go panic (unchecked type assertion) is modelled by the `Outcome.panicked`
  result; deferred functions still run during a panic, so the deferred
  `Save` event is still emitted in that case.
-/

set_option maxHeartbeats 1000000

namespace CsiBroker

mutual
/-- A JSON document, as produced by Go's `encoding/json` generic decoding
into `interface{}` (strings, booleans, numbers, null, arrays, objects).
Numbers are modelled as integers; no claim depends on fractional values. -/
inductive Json
  | str (s : String)
  | boolean (b : Bool)
  | num (n : Int)
  | null
  | arr (elems : JsonList)
  | obj (fields : JsonFields)
  deriving DecidableEq, Repr

inductive JsonList
  | nil
  | cons (v : Json) (rest : JsonList)
  deriving DecidableEq, Repr

inductive JsonFields
  | nil
  | cons (k : String) (v : Json) (rest : JsonFields)
  deriving DecidableEq, Repr
end

/-- Lookup in a decoded JSON object, modelling Go map indexing
(`parameters["mount"]`); keys of a Go map are unique, so first match. -/
def JsonFields.lookup : JsonFields → String → Option Json
  | .nil, _ => none
  | .cons k v rest, key => if k = key then some v else rest.lookup key

/-- Association-list lookup, modelling Go map indexing for the record store. -/
def alookup {α : Type} : List (String × α) → String → Option α
  | [], _ => none
  | (k, v) :: rest, key => if k = key then some v else alookup rest key

/-- Association-list upsert, modelling Go map assignment `m[k] = v`. -/
def upsert {α : Type} : List (String × α) → String → α → List (String × α)
  | [], key, v => [(key, v)]
  | (k, w) :: rest, key, v =>
    if k = key then (key, v) :: rest else (k, w) :: upsert rest key v

/-- Association-list key removal, modelling Go map `delete(m, k)`. -/
def removeKey {α : Type} : List (String × α) → String → List (String × α)
  | [], _ => []
  | (k, v) :: rest, key =>
    if k = key then removeKey rest key else (k, v) :: removeKey rest key

/-- Number of entries stored under a key (used to state "exactly one
record" properties). -/
def countKey {α : Type} : List (String × α) → String → Nat
  | [], _ => 0
  | (k, _) :: rest, key => (if k = key then 1 else 0) + countKey rest key

/-- The broker-visible errors. Named constructors mirror the `brokerapi`
sentinel errors and the literal error messages built in `csibroker.go`;
`external` carries an error surfaced verbatim from a collaborator (registry,
plugin RPC, store save). -/
inductive BrokerErr
  | errRawParamsInvalid
  | errInstanceAlreadyExists
  | errInstanceDoesNotExist
  | errBindingAlreadyExists
  | errBindingDoesNotExist
  | errAppGuidNotProvided
  | volumeDeletionRequiresInstanceID
  | volumeDeletionRequiresPlanID
  | volumeDeletionRequiresServiceID
  | configRequiresName
  | configRequiresVolumeCapabilities
  | fingerprintDecodeError
  | bindParamsUnmarshalError
  | external (msg : String)
  deriving DecidableEq, Repr

/-- Result of a broker operation: the Go function's `(value, error)` pair,
plus `panicked` for an unchecked type assertion failure. -/
inductive Outcome (α : Type)
  | ok (value : α)
  | error (err : BrokerErr)
  | panicked
  deriving DecidableEq, Repr

/-- The fields of `csi.Volume` that the broker reads: `VolumeId` and
`VolumeContext` (JSON keys `volume_id` / `volume_context`, both tagged
`omitempty` in the generated protobuf struct). -/
structure CsiVolume where
  volumeId : String
  volumeContext : List (String × String)
  deriving DecidableEq, Repr

/-- Embeds `ServiceFingerPrint` from `csibroker.go`: the request name plus
the plugin-returned volume descriptor. -/
structure ServiceFingerPrint where
  name : String
  volume : CsiVolume
  deriving DecidableEq, Repr

/-- A stored fingerprint value: either the original typed
`*ServiceFingerPrint` or a generically decoded JSON document (the
type-erased representation the store may rehydrate it as). -/
inductive StoredFingerprint
  | typed (fingerprint : ServiceFingerPrint)
  | generic (doc : Json)
  deriving DecidableEq, Repr

/-- Embeds `brokerstore.ServiceInstance` as built by `Provision`. -/
structure ServiceInstance where
  serviceID : String
  planID : String
  organizationGUID : String
  spaceGUID : String
  serviceFingerPrint : StoredFingerprint
  deriving DecidableEq, Repr

/-- The `{serviceID, planID, organizationGUID, spaceGUID}` identity of an
instance record, the part compared by the conflict check. -/
def identityTuple (inst : ServiceInstance) : String × String × String × String :=
  (inst.serviceID, inst.planID, inst.organizationGUID, inst.spaceGUID)

/-- Embeds `brokerapi.BindDetails` (the fields the broker reads):
`ServiceID`, `PlanID`, `AppGUID` and the raw bind parameters.
`rawParameters = none` models a nil `RawParameters` byte slice; `some j`
models bytes that decode to the JSON document `j`. -/
structure BindDetails where
  serviceID : String
  planID : String
  appGUID : String
  rawParameters : Option Json
  deriving DecidableEq, Repr

/-- Modelled from the spec: the external `brokerstore.Store` record store
(spec.md Sections 3 and 6) — a durable key-value store of instance and
binding records with read-your-writes semantics. The store library itself
is not part of this repository. -/
structure Store where
  instances : List (String × ServiceInstance)
  bindings : List (String × BindDetails)
  deriving DecidableEq, Repr

/-- Modelled from the spec: `IsInstanceConflict` — an instance identifier
already stored with a different `{serviceID, planID, organizationGUID,
spaceGUID}` tuple is a conflict (spec.md Section 3). -/
def Store.isInstanceConflict (st : Store) (instanceID : String)
    (details : ServiceInstance) : Bool :=
  match alookup st.instances instanceID with
  | some existing => decide (identityTuple existing ≠ identityTuple details)
  | none => false

/-- Modelled from the spec: `IsBindingConflict` — a binding identifier
already stored with different details is a conflict (spec.md Section 3). -/
def Store.isBindingConflict (st : Store) (bindingID : String)
    (details : BindDetails) : Bool :=
  match alookup st.bindings bindingID with
  | some existing => decide (existing ≠ details)
  | none => false

/-- Modelled from the spec: `CreateInstanceDetails` upserts the record
(spec.md Section 4.1 step 4: "otherwise upsert the record"). -/
def Store.createInstanceDetails (st : Store) (instanceID : String)
    (details : ServiceInstance) : Store :=
  { st with instances := upsert st.instances instanceID details }

/-- Modelled from the spec: `DeleteInstanceDetails` removes the record. -/
def Store.deleteInstanceDetails (st : Store) (instanceID : String) : Store :=
  { st with instances := removeKey st.instances instanceID }

/-- Modelled from the spec: `CreateBindingDetails` upserts the record. -/
def Store.createBindingDetails (st : Store) (bindingID : String)
    (details : BindDetails) : Store :=
  { st with bindings := upsert st.bindings bindingID details }

/-- Modelled from the spec: `DeleteBindingDetails` removes the record. -/
def Store.deleteBindingDetails (st : Store) (bindingID : String) : Store :=
  { st with bindings := removeKey st.bindings bindingID }

/-- Embeds the in-memory broker state: the probe-once latch
(`Broker.controllerProbed`) and the record store contents. -/
structure BrokerState where
  controllerProbed : Bool
  store : Store
  deriving DecidableEq, Repr

/-- Remote-interaction events, recorded so claims about which RPCs an
operation issues (and whether `Save` ran) can be stated. -/
inductive Event
  | probeRPC (serviceID : String)
  | createVolumeRPC (serviceID : String) (name : String)
  | deleteVolumeRPC (serviceID : String) (volumeId : String)
  | save
  deriving DecidableEq, Repr

/-- Per-call outcomes of the external collaborators: registry client
resolution, the plugin RPCs, the registry driver-name lookup, and the
store's `Save`. Each field is what that collaborator would return if the
operation invokes it during this call. -/
structure Env where
  identityClient : Except BrokerErr Unit
  probeResult : Except BrokerErr Unit
  controllerClient : Except BrokerErr Unit
  createVolumeResult : Except BrokerErr CsiVolume
  deleteVolumeResult : Except BrokerErr Unit
  driverNameResult : Except BrokerErr String
  saveResult : Except BrokerErr Unit
  deriving Repr

/-- Embeds the deferred-save pattern shared by all four lifecycle
operations: `out := b.store.Save(logger); if e == nil { e = out }`.
A `Save` error replaces only a nil operation error; a panic propagates
unchanged (the deferred function runs but `e` stays nil). -/
def applySave {α : Type} (save : Except BrokerErr Unit) : Outcome α → Outcome α
  | .ok a =>
    match save with
    | .ok _ => .ok a
    | .error e => .error e
  | .error e => .error e
  | .panicked => .panicked

-- Constants from csibroker.go.

/-- Embeds the `DefaultContainerPath` constant. -/
def DefaultContainerPath : String := "/var/vcap/data"

/-- Models Go `path.Join` on two elements. `path.Join` concatenates the
non-empty elements with a slash and cleans the result; both operands used
by the broker (`DefaultContainerPath` and an instance identifier) are
already clean, for which Join is plain slash-concatenation. -/
def pathJoin (elem1 elem2 : String) : String :=
  if elem1 = "" then elem2
  else if elem2 = "" then elem1
  else elem1 ++ "/" ++ elem2

-- Parameter evaluators (csibroker.go lines 393-432).

/-- Embeds `readOnlyToMode`. -/
def readOnlyToMode (ro : Bool) : String :=
  if ro then "r" else "rw"

/-- Embeds `evaluateMode`: a `readonly` key must hold a boolean; any other
present value is `ErrRawParamsInvalid`; an absent key defaults to "rw". -/
def evaluateMode (parameters : JsonFields) : Except BrokerErr String :=
  match parameters.lookup "readonly" with
  | some (Json.boolean ro) => .ok (readOnlyToMode ro)
  | some _ => .error .errRawParamsInvalid
  | none => .ok "rw"

/-- Embeds `evaluateContainerPath`. The Go guard is
`ok && containerPath != ""`: an interface value is `!= ""` unless it is
exactly the string `""`, so a present non-string value passes the guard and
the unchecked assertion `containerPath.(string)` panics (`none` here). -/
def evaluateContainerPath (parameters : JsonFields) (volId : String) :
    Option String :=
  match parameters.lookup "mount" with
  | some (Json.str s) =>
    if s = "" then some (pathJoin DefaultContainerPath volId) else some s
  | some _ => none
  | none => some (pathJoin DefaultContainerPath volId)

/-- Embeds `evaluateId`: if either `uid` or `gid` is absent the result is
the nil map (inner `none`); if both are present each is read through an
unchecked string assertion, panicking (outer `none`) on a non-string. -/
def evaluateId (parameters : JsonFields) :
    Option (Option (List (String × String))) :=
  match parameters.lookup "uid" with
  | none => some none
  | some u =>
    match parameters.lookup "gid" with
    | none => some none
    | some g =>
      match u, g with
      | Json.str us, Json.str gs => some (some [("uid", us), ("gid", gs)])
      | _, _ => none

-- Fingerprint JSON codec (for the type-erased representation).

/-- Encodes a string-to-string map as a JSON object, as Go's
`encoding/json` marshals `map[string]string`. -/
def encodeStringMap : List (String × String) → JsonFields
  | [] => .nil
  | (k, v) :: rest => .cons k (.str v) (encodeStringMap rest)

/-- Decodes a JSON object back into a string-to-string map; any non-string
member value is an unmarshal error (`none`). -/
def JsonFields.asStringMap : JsonFields → Option (List (String × String))
  | .nil => some []
  | .cons k v rest =>
    match v with
    | .str s => (rest.asStringMap).map (fun m => (k, s) :: m)
    | _ => none

/-- Encodes the modelled `csi.Volume` as Go's `encoding/json` marshals it:
keys `volume_id` and `volume_context`, each omitted when empty
(`omitempty`). -/
def encodeVolume (v : CsiVolume) : Json :=
  Json.obj
    ((if v.volumeId = "" then id
      else JsonFields.cons "volume_id" (.str v.volumeId))
     (if v.volumeContext = [] then .nil
      else JsonFields.cons "volume_context"
        (.obj (encodeStringMap v.volumeContext)) .nil))

/-- Decodes a string field of a JSON object as Go unmarshals into a
`string` struct field: an absent key or JSON null leaves the zero value,
a non-string present value is an unmarshal error. -/
def decodeStrField (fields : JsonFields) (key : String) : Option String :=
  match fields.lookup key with
  | none => some ""
  | some (.str s) => some s
  | some .null => some ""
  | some _ => none

/-- Decodes the modelled `csi.Volume` from a JSON object. An absent
`volume_context` leaves the empty map. (A missing or null document would
give Go a nil `*csi.Volume`, unusable by every caller; the model folds that
case into decode failure.) -/
def decodeVolume : Json → Option CsiVolume
  | .obj fields =>
    match decodeStrField fields "volume_id" with
    | none => none
    | some vid =>
      match fields.lookup "volume_context" with
      | none => some ⟨vid, []⟩
      | some .null => some ⟨vid, []⟩
      | some (.obj m) =>
        match m.asStringMap with
        | none => none
        | some ctx => some ⟨vid, ctx⟩
      | some _ => none
  | _ => none

/-- Encodes a `ServiceFingerPrint` as Go's `encoding/json` marshals it:
keys `Name` and `Volume` (no struct tags, so Go field names, always
present). This is the generic document a typed fingerprint round-trips
through when the store rehydrates it type-erased. -/
def encodeFingerprint (fp : ServiceFingerPrint) : Json :=
  Json.obj (.cons "Name" (.str fp.name)
    (.cons "Volume" (encodeVolume fp.volume) .nil))

/-- Decodes a `ServiceFingerPrint` from a generic JSON document, as
`json.Unmarshal` into `*ServiceFingerPrint` does for documents produced by
Go's own encoder (exact-case keys). -/
def decodeFingerprint : Json → Option ServiceFingerPrint
  | .obj fields =>
    match decodeStrField fields "Name" with
    | none => none
    | some name =>
      match fields.lookup "Volume" with
      | some volDoc =>
        match decodeVolume volDoc with
        | some vol => some ⟨name, vol⟩
        | none => none
      | none => none
  | _ => none

/-- Embeds `getFingerprint`: a stored value that is already the typed
`*ServiceFingerPrint` is returned as-is (the type assertion succeeds);
otherwise the generic document is re-marshalled and unmarshalled as the
typed struct (marshalling a value that itself came from JSON cannot fail,
so the model goes straight to decoding the document). -/
def getFingerprint : StoredFingerprint → Except BrokerErr ServiceFingerPrint
  | .typed fingerprint => .ok fingerprint
  | .generic rawObject =>
    match decodeFingerprint rawObject with
    | some fingerprint => .ok fingerprint
    | none => .error .fingerprintDecodeError

-- Broker operations (csibroker.go lines 105-391).

/-- Embeds `ProvisionedServiceSpec` (the field the broker sets). -/
structure ProvisionedServiceSpec where
  isAsync : Bool
  deriving DecidableEq, Repr

/-- Embeds `DeprovisionServiceSpec` (the fields the broker sets). -/
structure DeprovisionServiceSpec where
  isAsync : Bool
  operationData : String
  deriving DecidableEq, Repr

/-- The fields of the jsonpb-decoded `csi.CreateVolumeRequest` that
`Provision` validates: the request name and the number of entries of
`volume_capabilities`. -/
structure CreateVolumeConfig where
  name : String
  volumeCapabilities : Nat
  deriving DecidableEq, Repr

/-- Embeds `brokerapi.ProvisionDetails` (the fields the broker reads).
`rawParameters` carries the jsonpb decoding of the raw bytes:
`.error ()` models bytes `jsonpb.UnmarshalString` rejects. -/
structure ProvisionDetails where
  serviceID : String
  planID : String
  organizationGUID : String
  spaceGUID : String
  rawParameters : Except Unit CreateVolumeConfig
  deriving Repr

/-- Embeds `brokerapi.DeprovisionDetails` (the fields the broker reads). -/
structure DeprovisionDetails where
  planID : String
  serviceID : String
  deriving DecidableEq, Repr

/-- Embeds `brokerapi.UnbindDetails` (the field the broker reads). -/
structure UnbindDetails where
  serviceID : String
  deriving DecidableEq, Repr

/-- Embeds `Broker.probeController`: when the latch is unset, resolve the
identity client (failure returns before any RPC), issue the Probe RPC, and
set the latch only on success; when the latch is set, do nothing. -/
def probeController (env : Env) (s : BrokerState) (serviceID : String) :
    Except BrokerErr Unit × BrokerState × List Event :=
  if s.controllerProbed then (.ok (), s, [])
  else
    match env.identityClient with
    | .error e => (.error e, s, [])
    | .ok _ =>
      match env.probeResult with
      | .error e => (.error e, s, [Event.probeRPC serviceID])
      | .ok _ => (.ok (), { s with controllerProbed := true },
          [Event.probeRPC serviceID])

/-- Embeds the locked section of `Provision` (lines 141-171): build the
fingerprint and instance record, fail on an instance conflict, otherwise
store the record. (`CreateInstanceDetails` is modelled from the spec as an
upsert that does not fail.) -/
def provisionBody (st : Store) (instanceID : String)
    (details : ProvisionDetails) (name : String) (volInfo : CsiVolume) :
    Outcome ProvisionedServiceSpec × Store :=
  let fingerprint : ServiceFingerPrint := ⟨name, volInfo⟩
  let instanceDetails : ServiceInstance :=
    ⟨details.serviceID, details.planID, details.organizationGUID,
      details.spaceGUID, .typed fingerprint⟩
  if st.isInstanceConflict instanceID instanceDetails then
    (.error .errInstanceAlreadyExists, st)
  else
    (.ok ⟨false⟩, st.createInstanceDetails instanceID instanceDetails)

/-- Embeds `Broker.Provision`: probe gate, jsonpb decode and validation of
the create-volume configuration, controller resolution, the CreateVolume
RPC, then the locked mutate-and-save section. -/
def provision (env : Env) (s : BrokerState) (instanceID : String)
    (details : ProvisionDetails) :
    Outcome ProvisionedServiceSpec × BrokerState × List Event :=
  match probeController env s details.serviceID with
  | (.error e, s1, evs) => (.error e, s1, evs)
  | (.ok _, s1, evs) =>
    match details.rawParameters with
    | .error _ => (.error .errRawParamsInvalid, s1, evs)
    | .ok configuration =>
      if configuration.name = "" then (.error .configRequiresName, s1, evs)
      else if configuration.volumeCapabilities = 0 then
        (.error .configRequiresVolumeCapabilities, s1, evs)
      else
        match env.controllerClient with
        | .error e => (.error e, s1, evs)
        | .ok _ =>
          match env.createVolumeResult with
          | .error e => (.error e, s1,
              evs ++ [Event.createVolumeRPC details.serviceID configuration.name])
          | .ok volInfo =>
            let (r, st) :=
              provisionBody s1.store instanceID details configuration.name volInfo
            (applySave env.saveResult r, { s1 with store := st },
              evs ++ [Event.createVolumeRPC details.serviceID configuration.name,
                Event.save])

/-- Embeds the locked section of `Deprovision` (lines 220-234): delete the
instance record. (`DeleteInstanceDetails` is modelled from the spec as
non-failing.) -/
def deprovisionBody (st : Store) (instanceID : String) :
    Outcome DeprovisionServiceSpec × Store :=
  (.ok ⟨false, "deprovision"⟩, st.deleteInstanceDetails instanceID)

/-- Embeds `Broker.Deprovision`: probe gate, non-empty identifier checks,
record lookup, fingerprint reconstruction, controller resolution, the
DeleteVolume RPC, then the locked delete-and-save section. -/
def deprovision (env : Env) (s : BrokerState) (instanceID : String)
    (details : DeprovisionDetails) :
    Outcome DeprovisionServiceSpec × BrokerState × List Event :=
  match probeController env s details.serviceID with
  | (.error e, s1, evs) => (.error e, s1, evs)
  | (.ok _, s1, evs) =>
    if instanceID = "" then (.error .volumeDeletionRequiresInstanceID, s1, evs)
    else if details.planID = "" then
      (.error .volumeDeletionRequiresPlanID, s1, evs)
    else if details.serviceID = "" then
      (.error .volumeDeletionRequiresServiceID, s1, evs)
    else
      match alookup s1.store.instances instanceID with
      | none => (.error .errInstanceDoesNotExist, s1, evs)
      | some instanceDetails =>
        match getFingerprint instanceDetails.serviceFingerPrint with
        | .error e => (.error e, s1, evs)
        | .ok fingerprint =>
          match env.controllerClient with
          | .error e => (.error e, s1, evs)
          | .ok _ =>
            match env.deleteVolumeResult with
            | .error e => (.error e, s1,
                evs ++ [Event.deleteVolumeRPC details.serviceID
                  fingerprint.volume.volumeId])
            | .ok _ =>
              let (r, st) := deprovisionBody s1.store instanceID
              (applySave env.saveResult r, { s1 with store := st },
                evs ++ [Event.deleteVolumeRPC details.serviceID
                  fingerprint.volume.volumeId, Event.save])

/-- Embeds the bind-parameter decoding (lines 274-284): a nil
`RawParameters` leaves the empty map; otherwise `json.Unmarshal` into
`map[string]interface{}` requires a JSON object. -/
def bindRawParams (bindDetails : BindDetails) : Except BrokerErr JsonFields :=
  match bindDetails.rawParameters with
  | none => .ok .nil
  | some (.obj fields) => .ok fields
  | some _ => .error .bindParamsUnmarshalError

/-- Embeds `brokerapi.SharedDevice` as `Bind` fills it: the synthesized
volume handle plus the `MountConfig` map entries `id`, `attributes` and
`binding-params`. -/
structure SharedDevice where
  volumeId : String
  mountConfigId : String
  mountConfigAttributes : List (String × String)
  mountConfigBindingParams : Option (List (String × String))
  deriving DecidableEq, Repr

/-- Embeds `brokerapi.VolumeMount` as `Bind` fills it. -/
structure VolumeMount where
  containerDir : String
  mode : String
  driver : String
  deviceType : String
  device : SharedDevice
  deriving DecidableEq, Repr

/-- Embeds `brokerapi.Binding` as `Bind` fills it. `credentials = some ()`
models the non-nil empty `struct{}{}` the code assigns so that the cloud
controller does not choke on a null credentials value. -/
structure Binding where
  credentials : Option Unit
  volumeMounts : List VolumeMount
  deriving DecidableEq, Repr

/-- Embeds the locked section of `Bind` (lines 246-327): record lookup,
app-GUID check, fingerprint reconstruction, parameter decode, mode
evaluation, binding conflict check, binding record write, driver-name
lookup, and construction of the binding result (in which the unchecked
assertions of `evaluateContainerPath` and `evaluateId` may panic, container
path first, matching the source-order evaluation of the struct literal). -/
def bindBody (env : Env) (st : Store) (instanceID : String)
    (bindingID : String) (bindDetails : BindDetails) :
    Outcome Binding × Store :=
  match alookup st.instances instanceID with
  | none => (.error .errInstanceDoesNotExist, st)
  | some instanceDetails =>
    if bindDetails.appGUID = "" then (.error .errAppGuidNotProvided, st)
    else
      match getFingerprint instanceDetails.serviceFingerPrint with
      | .error e => (.error e, st)
      | .ok fingerprint =>
        match bindRawParams bindDetails with
        | .error e => (.error e, st)
        | .ok params =>
          match evaluateMode params with
          | .error e => (.error e, st)
          | .ok mode =>
            if st.isBindingConflict bindingID bindDetails then
              (.error .errBindingAlreadyExists, st)
            else
              let st1 := st.createBindingDetails bindingID bindDetails
              match env.driverNameResult with
              | .error e => (.error e, st1)
              | .ok driverName =>
                match evaluateContainerPath params instanceID with
                | none => (.panicked, st1)
                | some containerDir =>
                  match evaluateId params with
                  | none => (.panicked, st1)
                  | some bindingParams =>
                    (.ok ⟨some (),
                      [⟨containerDir, mode, driverName, "shared",
                        ⟨instanceID ++ "-volume",
                          fingerprint.volume.volumeId,
                          fingerprint.volume.volumeContext,
                          bindingParams⟩⟩]⟩, st1)

/-- Embeds `Broker.Bind`: probe gate, then the whole remaining operation
runs in the locked section with the deferred save. -/
def bind (env : Env) (s : BrokerState) (instanceID : String)
    (bindingID : String) (bindDetails : BindDetails) :
    Outcome Binding × BrokerState × List Event :=
  match probeController env s bindDetails.serviceID with
  | (.error e, s1, evs) => (.error e, s1, evs)
  | (.ok _, s1, evs) =>
    let (r, st) := bindBody env s1.store instanceID bindingID bindDetails
    (applySave env.saveResult r, { s1 with store := st }, evs ++ [Event.save])

/-- Embeds the locked section of `Unbind` (lines 339-359): require the
instance record and the binding record, then delete the binding record. -/
def unbindBody (st : Store) (instanceID : String) (bindingID : String) :
    Outcome Unit × Store :=
  match alookup st.instances instanceID with
  | none => (.error .errInstanceDoesNotExist, st)
  | some _ =>
    match alookup st.bindings bindingID with
    | none => (.error .errBindingDoesNotExist, st)
    | some _ => (.ok (), st.deleteBindingDetails bindingID)

/-- Embeds `Broker.Unbind`: probe gate, then the locked section with the
deferred save. -/
def unbind (env : Env) (s : BrokerState) (instanceID : String)
    (bindingID : String) (details : UnbindDetails) :
    Outcome Unit × BrokerState × List Event :=
  match probeController env s details.serviceID with
  | (.error e, s1, evs) => (.error e, s1, evs)
  | (.ok _, s1, evs) =>
    let (r, st) := unbindBody s1.store instanceID bindingID
    (applySave env.saveResult r, { s1 with store := st }, evs ++ [Event.save])

-- Traces of lifecycle operations within one process lifetime.

/-- One inbound lifecycle request, for stating process-lifetime (trace)
properties. -/
inductive OpCall
  | provisionOp (instanceID : String) (details : ProvisionDetails)
  | deprovisionOp (instanceID : String) (details : DeprovisionDetails)
  | bindOp (instanceID : String) (bindingID : String) (details : BindDetails)
  | unbindOp (instanceID : String) (bindingID : String) (details : UnbindDetails)

/-- The logical service a request addresses (the `ServiceID` of its
details, which is what every operation hands to `probeController`). -/
def OpCall.serviceID : OpCall → String
  | .provisionOp _ d => d.serviceID
  | .deprovisionOp _ d => d.serviceID
  | .bindOp _ _ d => d.serviceID
  | .unbindOp _ _ d => d.serviceID

/-- Runs one request against the broker state, keeping the state and the
emitted events. -/
def runOp (c : OpCall) (env : Env) (s : BrokerState) :
    BrokerState × List Event :=
  match c with
  | .provisionOp i d => ((provision env s i d).2.1, (provision env s i d).2.2)
  | .deprovisionOp i d =>
    ((deprovision env s i d).2.1, (deprovision env s i d).2.2)
  | .bindOp i b d => ((bind env s i b d).2.1, (bind env s i b d).2.2)
  | .unbindOp i b d => ((unbind env s i b d).2.1, (unbind env s i b d).2.2)

/-- Runs a sequence of requests (one process lifetime), concatenating the
emitted events. -/
def runTrace : List (OpCall × Env) → BrokerState → BrokerState × List Event
  | [], s => (s, [])
  | (c, env) :: rest, s =>
    let (s1, evs) := runOp c env s
    let (s2, evs2) := runTrace rest s1
    (s2, evs ++ evs2)

-- Specification predicates used to state when an operation's locked
-- mutate-and-persist section is entered.

/-- Specification predicate: whether an `Except` result is a success. -/
def exceptOk {ε α : Type} : Except ε α → Bool
  | .ok _ => true
  | .error _ => false

/-- Specification predicate: the probe gate passes for this call (the
latch is already set, or identity-client resolution and the Probe RPC both
succeed). -/
def probeGatePasses (env : Env) (s : BrokerState) : Bool :=
  s.controllerProbed ||
    (exceptOk env.identityClient && exceptOk env.probeResult)

/-- Specification predicate: `Provision` reaches its locked section (probe
gate passed, configuration decoded and valid, controller resolved,
CreateVolume succeeded). -/
def provisionReachesLock (env : Env) (s : BrokerState)
    (details : ProvisionDetails) : Bool :=
  probeGatePasses env s &&
  (match details.rawParameters with
   | .ok c => !(c.name = "") && !(c.volumeCapabilities = 0)
   | .error _ => false) &&
  exceptOk env.controllerClient && exceptOk env.createVolumeResult

/-- Specification predicate: the store holds a record for the identifier
whose fingerprint reconstructs successfully. -/
def fingerprintOkAt (st : Store) (instanceID : String) : Bool :=
  match alookup st.instances instanceID with
  | some inst => exceptOk (getFingerprint inst.serviceFingerPrint)
  | none => false

/-- Specification predicate: `Deprovision` reaches its locked section
(probe gate passed, identifiers non-empty, record present, fingerprint
reconstructed, controller resolved, DeleteVolume succeeded). -/
def deprovisionReachesLock (env : Env) (s : BrokerState)
    (instanceID : String) (details : DeprovisionDetails) : Bool :=
  probeGatePasses env s &&
  !(instanceID = "") && !(details.planID = "") && !(details.serviceID = "") &&
  fingerprintOkAt s.store instanceID &&
  exceptOk env.controllerClient && exceptOk env.deleteVolumeResult

-- Helper lemmas about the probe gate.

theorem probeController_of_probed (env : Env) (s : BrokerState) (sid : String)
    (h : s.controllerProbed = true) :
    probeController env s sid = (.ok (), s, []) := by
  simp [probeController, h]

theorem runOp_of_probed (c : OpCall) (env : Env) (s : BrokerState)
    (h : s.controllerProbed = true) :
    (runOp c env s).1.controllerProbed = true ∧
      ∀ sid, Event.probeRPC sid ∉ (runOp c env s).2 := by
  cases c <;>
    simp only [runOp, provision, deprovision, bind, unbind,
      probeController_of_probed _ _ _ h] <;>
    refine ⟨?_, ?_⟩ <;> (try intro sid) <;>
    (repeat' split) <;> simp_all

theorem runTrace_no_probe_of_probed (trace : List (OpCall × Env))
    (s : BrokerState) (h : s.controllerProbed = true) (sid : String) :
    Event.probeRPC sid ∉ (runTrace trace s).2 := by
  induction trace generalizing s with
  | nil => simp [runTrace]
  | cons p rest ih =>
    obtain ⟨c, env⟩ := p
    obtain ⟨hprobed, hnomem⟩ := runOp_of_probed c env s h
    simp only [runTrace]
    rcases hr : runOp c env s with ⟨s1, evs⟩
    rw [hr] at hprobed hnomem
    simp only [List.mem_append, not_or]
    exact ⟨hnomem sid, ih s1 hprobed⟩

/-- C1 (counterexample): the identity-probe latch is a single process-wide
boolean, not per-service. In the concrete two-request lifetime below, the
first request (for service "A") probes and latches; the second request then
drives service "Bee"'s controller (a CreateVolume RPC is issued for it)
although no identity-probe RPC for service "Bee" is ever issued — refuting
"the broker issues the identity-probe RPC for that service exactly once
before any operation touches that service's controller". -/
theorem c1_probe_per_service_counterexample :
    (runTrace
      [(.unbindOp "i" "b" ⟨"A"⟩,
         ⟨.ok (), .ok (), .ok (), .ok ⟨"csivol", []⟩, .ok (), .ok "d", .ok ()⟩),
       (.provisionOp "i2" ⟨"Bee", "p", "o", "sp", .ok ⟨"vol", 1⟩⟩,
         ⟨.ok (), .ok (), .ok (), .ok ⟨"csivol", []⟩, .ok (), .ok "d", .ok ()⟩)]
      ⟨false, ⟨[], []⟩⟩).2 =
      [Event.probeRPC "A", Event.save, Event.createVolumeRPC "Bee" "vol",
        Event.save] ∧
    Event.createVolumeRPC "Bee" "vol" ∈
      (runTrace
        [(.unbindOp "i" "b" ⟨"A"⟩,
           ⟨.ok (), .ok (), .ok (), .ok ⟨"csivol", []⟩, .ok (), .ok "d", .ok ()⟩),
         (.provisionOp "i2" ⟨"Bee", "p", "o", "sp", .ok ⟨"vol", 1⟩⟩,
           ⟨.ok (), .ok (), .ok (), .ok ⟨"csivol", []⟩, .ok (), .ok "d", .ok ()⟩)]
        ⟨false, ⟨[], []⟩⟩).2 ∧
    Event.probeRPC "Bee" ∉
      (runTrace
        [(.unbindOp "i" "b" ⟨"A"⟩,
           ⟨.ok (), .ok (), .ok (), .ok ⟨"csivol", []⟩, .ok (), .ok "d", .ok ()⟩),
         (.provisionOp "i2" ⟨"Bee", "p", "o", "sp", .ok ⟨"vol", 1⟩⟩,
           ⟨.ok (), .ok (), .ok (), .ok ⟨"csivol", []⟩, .ok (), .ok "d", .ok ()⟩)]
        ⟨false, ⟨[], []⟩⟩).2 := by
  refine ⟨?_, ?_, ?_⟩ <;> decide

/-- C1 (amended): the probe latch is process-global. Whichever lifecycle
operation runs first issues the identity-probe RPC for its own service;
once any probe succeeds the latch is set and no operation in the rest of
the process lifetime issues a probe for any service; a failed probe fails
the triggering operation with the probe error, leaves the latch unset and
the state and store untouched, so the next operation issues the probe
again. -/
theorem c1_probe_latch_is_global (env : Env) (s : BrokerState) :
    (∀ sid, s.controllerProbed = true →
      probeController env s sid = (.ok (), s, [])) ∧
    (∀ sid, s.controllerProbed = false → env.identityClient = .ok () →
      env.probeResult = .ok () →
      probeController env s sid =
        (.ok (), ⟨true, s.store⟩, [Event.probeRPC sid])) ∧
    (∀ sid e, s.controllerProbed = false → env.identityClient = .ok () →
      env.probeResult = .error e →
      probeController env s sid = (.error e, s, [Event.probeRPC sid])) ∧
    (∀ trace sid, s.controllerProbed = true →
      Event.probeRPC sid ∉ (runTrace trace s).2) ∧
    (∀ e, s.controllerProbed = false → env.identityClient = .ok () →
      env.probeResult = .error e →
      (∀ i d, provision env s i d = (.error e, s, [Event.probeRPC d.serviceID])) ∧
      (∀ i d, deprovision env s i d =
        (.error e, s, [Event.probeRPC d.serviceID])) ∧
      (∀ i b d, bind env s i b d =
        (.error e, s, [Event.probeRPC d.serviceID])) ∧
      (∀ i b d, unbind env s i b d =
        (.error e, s, [Event.probeRPC d.serviceID]))) := by
  refine ⟨?_, ?_, ?_, ?_, ?_⟩
  · intro sid h
    exact probeController_of_probed env s sid h
  · intro sid h h1 h2
    cases s
    simp_all [probeController]
  · intro sid e h h1 h2
    simp_all [probeController]
  · intro trace sid h
    exact runTrace_no_probe_of_probed trace s h sid
  · intro e h h1 h2
    have hp : ∀ sid, probeController env s sid =
        (.error e, s, [Event.probeRPC sid]) := by
      intro sid
      simp_all [probeController]
    refine ⟨?_, ?_, ?_, ?_⟩ <;> intros <;>
      simp [provision, deprovision, bind, unbind, hp]

/-- C1 (witness): concrete instantiation of the amended latch theorem. The
latched broker skips the probe; an unlatched broker whose probe fails
returns the probe error, keeps the latch unset, and its Provision emits
only the failed probe RPC. -/
theorem c1_probe_latch_is_global_witness :
    probeController
        ⟨.ok (), .ok (), .ok (), .ok ⟨"v", []⟩, .ok (), .ok "d", .ok ()⟩
        ⟨true, ⟨[], []⟩⟩ "A" = (.ok (), ⟨true, ⟨[], []⟩⟩, []) ∧
    provision
        ⟨.ok (), .error (.external "probe down"), .ok (), .ok ⟨"v", []⟩,
          .ok (), .ok "d", .ok ()⟩
        ⟨false, ⟨[], []⟩⟩ "i" ⟨"A", "p", "o", "sp", .ok ⟨"vol", 1⟩⟩ =
      (.error (.external "probe down"), ⟨false, ⟨[], []⟩⟩,
        [Event.probeRPC "A"]) := by
  constructor
  · exact (c1_probe_latch_is_global
      ⟨.ok (), .ok (), .ok (), .ok ⟨"v", []⟩, .ok (), .ok "d", .ok ()⟩
      ⟨true, ⟨[], []⟩⟩).1 "A" rfl
  · exact ((c1_probe_latch_is_global
      ⟨.ok (), .error (.external "probe down"), .ok (), .ok ⟨"v", []⟩,
        .ok (), .ok "d", .ok ()⟩
      ⟨false, ⟨[], []⟩⟩).2.2.2.2 (.external "probe down") rfl rfl rfl).1 "i"
      ⟨"A", "p", "o", "sp", .ok ⟨"vol", 1⟩⟩

-- Helper lemmas about the association-list store and the probe gate.

theorem probeController_of_gate (env : Env) (s : BrokerState) (sid : String)
    (h : probeGatePasses env s = true) :
    probeController env s sid =
      (.ok (), ⟨true, s.store⟩,
        if s.controllerProbed then [] else [Event.probeRPC sid]) := by
  rcases s with ⟨probed, st⟩
  cases probed
  · simp only [probeGatePasses, Bool.false_or, Bool.and_eq_true] at h
    obtain ⟨h1, h2⟩ := h
    rcases hic : env.identityClient with e | u
    · rw [hic] at h1
      simp [exceptOk] at h1
    · rcases hpr : env.probeResult with e | u
      · rw [hpr] at h2
        simp [exceptOk] at h2
      · simp [probeController, hic, hpr]
  · simp [probeController]

theorem alookup_upsert_self {α : Type} (l : List (String × α)) (k : String)
    (v : α) : alookup (upsert l k v) k = some v := by
  induction l with
  | nil => simp [upsert, alookup]
  | cons p rest ih =>
    obtain ⟨k1, w⟩ := p
    by_cases hk : k1 = k <;> simp [upsert, alookup, hk, ih]

theorem countKey_eq_zero_of_alookup_none {α : Type} (l : List (String × α))
    (k : String) (h : alookup l k = none) : countKey l k = 0 := by
  induction l with
  | nil => simp [countKey]
  | cons p rest ih =>
    obtain ⟨k1, w⟩ := p
    by_cases hk : k1 = k
    · simp [alookup, hk] at h
    · simp only [alookup, if_neg hk] at h
      simp [countKey, hk, ih h]

theorem countKey_upsert_of_none {α : Type} (l : List (String × α))
    (k : String) (v : α) (h : alookup l k = none) :
    countKey (upsert l k v) k = countKey l k + 1 := by
  induction l with
  | nil => simp [upsert, countKey]
  | cons p rest ih =>
    obtain ⟨k1, w⟩ := p
    by_cases hk : k1 = k
    · simp [alookup, hk] at h
    · simp only [alookup, if_neg hk] at h
      simp [upsert, countKey, hk, ih h]
      try omega

theorem countKey_upsert_of_some {α : Type} (l : List (String × α))
    (k : String) (v w : α) (h : alookup l k = some w) :
    countKey (upsert l k v) k = countKey l k := by
  induction l with
  | nil => simp [alookup] at h
  | cons p rest ih =>
    obtain ⟨k1, w1⟩ := p
    by_cases hk : k1 = k
    · simp [upsert, countKey, hk]
    · simp only [alookup, if_neg hk] at h
      simp [upsert, countKey, hk, ih h]

/-- C2: a second Provision for an instance identifier that already has a
record, with a differing `{serviceID, planID, organizationGUID, spaceGUID}`
tuple, returns the "instance already exists" conflict error, leaves the
whole record store unmodified, and in particular leaves the originally
stored record in place. -/
theorem c2_provision_conflict (env : Env) (s : BrokerState)
    (instanceID : String) (details : ProvisionDetails)
    (cfg : CreateVolumeConfig) (vol : CsiVolume) (existing : ServiceInstance)
    (hgate : probeGatePasses env s = true)
    (hraw : details.rawParameters = .ok cfg)
    (hname : cfg.name ≠ "")
    (hcaps : cfg.volumeCapabilities ≠ 0)
    (hcc : env.controllerClient = .ok ())
    (hcv : env.createVolumeResult = .ok vol)
    (hexist : alookup s.store.instances instanceID = some existing)
    (hdiff : identityTuple existing ≠
      (details.serviceID, details.planID, details.organizationGUID,
        details.spaceGUID)) :
    (provision env s instanceID details).1 = .error .errInstanceAlreadyExists ∧
    (provision env s instanceID details).2.1.store = s.store ∧
    alookup (provision env s instanceID details).2.1.store.instances
      instanceID = some existing := by
  have hid : identityTuple
      ⟨details.serviceID, details.planID, details.organizationGUID,
        details.spaceGUID, .typed ⟨cfg.name, vol⟩⟩ =
      (details.serviceID, details.planID, details.organizationGUID,
        details.spaceGUID) := rfl
  have hconf : s.store.isInstanceConflict instanceID
      ⟨details.serviceID, details.planID, details.organizationGUID,
        details.spaceGUID, .typed ⟨cfg.name, vol⟩⟩ = true := by
    simp only [Store.isInstanceConflict, hexist, hid, decide_eq_true_eq]
    exact hdiff
  simp only [provision, probeController_of_gate env s details.serviceID hgate,
    hraw, hcc, hcv, provisionBody, if_neg hname, if_neg hcaps, hconf,
    if_true, applySave]
  simp [hexist]

/-- C2 (witness): concrete conflict — the stored record for "i" has planID
"p1", the resubmission has planID "p2"; the call fails with the conflict
error and the store still holds the original record. -/
theorem c2_provision_conflict_witness :
    (provision ⟨.ok (), .ok (), .ok (), .ok ⟨"cv", []⟩, .ok (), .ok "d", .ok ()⟩
      ⟨true, ⟨[("i", ⟨"sv", "p1", "o", "sp", .typed ⟨"n", ⟨"v", []⟩⟩⟩)], []⟩⟩
      "i" ⟨"sv", "p2", "o", "sp", .ok ⟨"n2", 1⟩⟩).1 =
      .error .errInstanceAlreadyExists ∧
    (provision ⟨.ok (), .ok (), .ok (), .ok ⟨"cv", []⟩, .ok (), .ok "d", .ok ()⟩
      ⟨true, ⟨[("i", ⟨"sv", "p1", "o", "sp", .typed ⟨"n", ⟨"v", []⟩⟩⟩)], []⟩⟩
      "i" ⟨"sv", "p2", "o", "sp", .ok ⟨"n2", 1⟩⟩).2.1.store =
      ⟨[("i", ⟨"sv", "p1", "o", "sp", .typed ⟨"n", ⟨"v", []⟩⟩⟩)], []⟩ ∧
    alookup (provision
      ⟨.ok (), .ok (), .ok (), .ok ⟨"cv", []⟩, .ok (), .ok "d", .ok ()⟩
      ⟨true, ⟨[("i", ⟨"sv", "p1", "o", "sp", .typed ⟨"n", ⟨"v", []⟩⟩⟩)], []⟩⟩
      "i" ⟨"sv", "p2", "o", "sp", .ok ⟨"n2", 1⟩⟩).2.1.store.instances "i" =
      some ⟨"sv", "p1", "o", "sp", .typed ⟨"n", ⟨"v", []⟩⟩⟩ :=
  c2_provision_conflict _ _ "i" _ ⟨"n2", 1⟩ ⟨"cv", []⟩
    ⟨"sv", "p1", "o", "sp", .typed ⟨"n", ⟨"v", []⟩⟩⟩
    (by decide) rfl (by decide) (by decide) rfl rfl (by decide) (by decide)

/-- C9: provisioning the same instance identifier twice with identical
details (and the same plugin volume response) succeeds both times and
leaves exactly one instance record for the identifier, holding the record
built from those details. -/
theorem c9_provision_idempotent (env : Env) (s : BrokerState)
    (instanceID : String) (details : ProvisionDetails)
    (cfg : CreateVolumeConfig) (vol : CsiVolume)
    (hgate : probeGatePasses env s = true)
    (hraw : details.rawParameters = .ok cfg)
    (hname : cfg.name ≠ "")
    (hcaps : cfg.volumeCapabilities ≠ 0)
    (hcc : env.controllerClient = .ok ())
    (hcv : env.createVolumeResult = .ok vol)
    (hsave : env.saveResult = .ok ())
    (habsent : alookup s.store.instances instanceID = none) :
    (provision env s instanceID details).1 = .ok ⟨false⟩ ∧
    (provision env (provision env s instanceID details).2.1 instanceID
      details).1 = .ok ⟨false⟩ ∧
    countKey (provision env (provision env s instanceID details).2.1
      instanceID details).2.1.store.instances instanceID = 1 ∧
    alookup (provision env (provision env s instanceID details).2.1
      instanceID details).2.1.store.instances instanceID =
      some ⟨details.serviceID, details.planID, details.organizationGUID,
        details.spaceGUID, .typed ⟨cfg.name, vol⟩⟩ := by
  have hconf1 : s.store.isInstanceConflict instanceID
      ⟨details.serviceID, details.planID, details.organizationGUID,
        details.spaceGUID, .typed ⟨cfg.name, vol⟩⟩ = false := by
    simp [Store.isInstanceConflict, habsent]
  have h1 : provision env s instanceID details =
      (.ok ⟨false⟩,
        ⟨true, ⟨upsert s.store.instances instanceID
          ⟨details.serviceID, details.planID, details.organizationGUID,
            details.spaceGUID, .typed ⟨cfg.name, vol⟩⟩,
          s.store.bindings⟩⟩,
        (if s.controllerProbed then [] else
          [Event.probeRPC details.serviceID]) ++
          [Event.createVolumeRPC details.serviceID cfg.name, Event.save]) := by
    simp only [provision, probeController_of_gate env s details.serviceID hgate,
      hraw, hcc, hcv, provisionBody, if_neg hname, if_neg hcaps, hconf1,
      Bool.false_eq_true, if_false, applySave, hsave,
      Store.createInstanceDetails]
  rw [h1]
  have hlook1 : alookup (upsert s.store.instances instanceID
      ⟨details.serviceID, details.planID, details.organizationGUID,
        details.spaceGUID, .typed ⟨cfg.name, vol⟩⟩) instanceID =
      some ⟨details.serviceID, details.planID, details.organizationGUID,
        details.spaceGUID, .typed ⟨cfg.name, vol⟩⟩ :=
    alookup_upsert_self _ _ _
  have hgate2 : probeGatePasses env
      (⟨true, ⟨upsert s.store.instances instanceID
        ⟨details.serviceID, details.planID, details.organizationGUID,
          details.spaceGUID, .typed ⟨cfg.name, vol⟩⟩,
        s.store.bindings⟩⟩ : BrokerState) = true := by
    simp [probeGatePasses]
  have hconf2 : (Store.isInstanceConflict
      ⟨upsert s.store.instances instanceID
        ⟨details.serviceID, details.planID, details.organizationGUID,
          details.spaceGUID, .typed ⟨cfg.name, vol⟩⟩,
        s.store.bindings⟩ instanceID
      ⟨details.serviceID, details.planID, details.organizationGUID,
        details.spaceGUID, .typed ⟨cfg.name, vol⟩⟩) = false := by
    simp [Store.isInstanceConflict, hlook1]
  simp only [provision, probeController_of_gate _ _ details.serviceID hgate2,
    hraw, hcc, hcv, provisionBody, if_neg hname, if_neg hcaps, hconf2,
    Bool.false_eq_true, if_false, applySave, hsave,
    Store.createInstanceDetails]
  refine ⟨by trivial, by trivial, ?_, ?_⟩
  · rw [countKey_upsert_of_some _ _ _ _ hlook1,
      countKey_upsert_of_none _ _ _ habsent,
      countKey_eq_zero_of_alookup_none _ _ habsent]
  · exact alookup_upsert_self _ _ _

/-- C9 (witness): concrete double-provision of "i" into an empty store with
identical details; both calls succeed and one record remains. -/
theorem c9_provision_idempotent_witness :
    (provision ⟨.ok (), .ok (), .ok (), .ok ⟨"cv", []⟩, .ok (), .ok "d", .ok ()⟩
      ⟨false, ⟨[], []⟩⟩ "i" ⟨"sv", "p", "o", "sp", .ok ⟨"n", 1⟩⟩).1 =
      .ok ⟨false⟩ ∧
    (provision ⟨.ok (), .ok (), .ok (), .ok ⟨"cv", []⟩, .ok (), .ok "d", .ok ()⟩
      (provision ⟨.ok (), .ok (), .ok (), .ok ⟨"cv", []⟩, .ok (), .ok "d",
        .ok ()⟩ ⟨false, ⟨[], []⟩⟩ "i" ⟨"sv", "p", "o", "sp", .ok ⟨"n", 1⟩⟩).2.1
      "i" ⟨"sv", "p", "o", "sp", .ok ⟨"n", 1⟩⟩).1 = .ok ⟨false⟩ ∧
    countKey (provision
      ⟨.ok (), .ok (), .ok (), .ok ⟨"cv", []⟩, .ok (), .ok "d", .ok ()⟩
      (provision ⟨.ok (), .ok (), .ok (), .ok ⟨"cv", []⟩, .ok (), .ok "d",
        .ok ()⟩ ⟨false, ⟨[], []⟩⟩ "i" ⟨"sv", "p", "o", "sp", .ok ⟨"n", 1⟩⟩).2.1
      "i" ⟨"sv", "p", "o", "sp", .ok ⟨"n", 1⟩⟩).2.1.store.instances "i" = 1 ∧
    alookup (provision
      ⟨.ok (), .ok (), .ok (), .ok ⟨"cv", []⟩, .ok (), .ok "d", .ok ()⟩
      (provision ⟨.ok (), .ok (), .ok (), .ok ⟨"cv", []⟩, .ok (), .ok "d",
        .ok ()⟩ ⟨false, ⟨[], []⟩⟩ "i" ⟨"sv", "p", "o", "sp", .ok ⟨"n", 1⟩⟩).2.1
      "i" ⟨"sv", "p", "o", "sp", .ok ⟨"n", 1⟩⟩).2.1.store.instances "i" =
      some ⟨"sv", "p", "o", "sp", .typed ⟨"n", ⟨"cv", []⟩⟩⟩ :=
  c9_provision_idempotent _ _ "i" _ ⟨"n", 1⟩ ⟨"cv", []⟩
    (by decide) rfl (by decide) (by decide) rfl rfl rfl (by decide)

/-- C4 (counterexample): a Deprovision call for an absent instance (all
identifiers non-empty) on a broker whose probe latch is still unset DOES
issue a plugin RPC — the identity probe — before failing with not-found,
refuting "issues no plugin RPC". -/
theorem c4_deprovision_rpc_counterexample :
    deprovision ⟨.ok (), .ok (), .ok (), .ok ⟨"cv", []⟩, .ok (), .ok "d", .ok ()⟩
        ⟨false, ⟨[], []⟩⟩ "i" ⟨"p", "A"⟩ =
      (.error .errInstanceDoesNotExist, ⟨true, ⟨[], []⟩⟩,
        [Event.probeRPC "A"]) ∧
    Event.probeRPC "A" ∈
      (deprovision ⟨.ok (), .ok (), .ok (), .ok ⟨"cv", []⟩, .ok (), .ok "d",
        .ok ()⟩ ⟨false, ⟨[], []⟩⟩ "i" ⟨"p", "A"⟩).2.2 := by
  constructor <;> decide

/-- C4 (amended): a Deprovision call for an instance identifier with no
stored record (identifiers non-empty) fails with "instance does not exist"
whenever the probe gate passes; it never issues a controller (volume) RPC —
every event it can emit is the one-time identity probe — and when the probe
latch is already set it issues no RPC at all. -/
theorem c4_deprovision_not_found (env : Env) (s : BrokerState)
    (instanceID : String) (details : DeprovisionDetails)
    (h1 : instanceID ≠ "") (h2 : details.planID ≠ "")
    (h3 : details.serviceID ≠ "")
    (habsent : alookup s.store.instances instanceID = none) :
    (probeGatePasses env s = true →
      deprovision env s instanceID details =
        (.error .errInstanceDoesNotExist, ⟨true, s.store⟩,
          if s.controllerProbed then [] else
            [Event.probeRPC details.serviceID])) ∧
    (∀ ev ∈ (deprovision env s instanceID details).2.2,
      ev = Event.probeRPC details.serviceID) ∧
    (s.controllerProbed = true →
      (deprovision env s instanceID details).2.2 = []) := by
  refine ⟨?_, ?_, ?_⟩
  · intro hgate
    simp [deprovision, probeController_of_gate env s details.serviceID hgate,
      if_neg h1, if_neg h2, if_neg h3, habsent]
  · intro ev
    cases hcp : s.controllerProbed
    · rcases hic : env.identityClient with e | u
      · simp [deprovision, probeController, hcp, hic]
      · rcases hpr : env.probeResult with e | u <;>
          simp [deprovision, probeController, hcp, hic, hpr, if_neg h1,
            if_neg h2, if_neg h3, habsent]
    · simp [deprovision, probeController_of_probed env s details.serviceID hcp,
        if_neg h1, if_neg h2, if_neg h3, habsent]
  · intro hcp
    simp [deprovision, probeController_of_probed env s details.serviceID hcp,
      if_neg h1, if_neg h2, if_neg h3, habsent]

/-- C4 (witness): with the latch already set and an empty store, the
concrete call fails not-found and emits no event at all. -/
theorem c4_deprovision_not_found_witness :
    deprovision ⟨.ok (), .ok (), .ok (), .ok ⟨"cv", []⟩, .ok (), .ok "d", .ok ()⟩
        ⟨true, ⟨[], []⟩⟩ "i" ⟨"p", "A"⟩ =
      (.error .errInstanceDoesNotExist, ⟨true, ⟨[], []⟩⟩, []) := by
  have h := (c4_deprovision_not_found
    ⟨.ok (), .ok (), .ok (), .ok ⟨"cv", []⟩, .ok (), .ok "d", .ok ()⟩
    ⟨true, ⟨[], []⟩⟩ "i" ⟨"p", "A"⟩
    (by decide) (by decide) (by decide) rfl).1 (by decide)
  simpa using h

-- Helper lemmas: the fingerprint JSON codec round-trips.

theorem asStringMap_encodeStringMap (m : List (String × String)) :
    (encodeStringMap m).asStringMap = some m := by
  induction m with
  | nil => simp [encodeStringMap, JsonFields.asStringMap]
  | cons p rest ih =>
    obtain ⟨k, v⟩ := p
    simp [encodeStringMap, JsonFields.asStringMap, ih]

theorem decodeVolume_encodeVolume (v : CsiVolume) :
    decodeVolume (encodeVolume v) = some v := by
  rcases v with ⟨vid, ctx⟩
  by_cases hv : vid = "" <;> by_cases hc : ctx = [] <;>
    simp [encodeVolume, decodeVolume, decodeStrField, JsonFields.lookup,
      hv, hc, asStringMap_encodeStringMap]

theorem decodeFingerprint_encodeFingerprint (fp : ServiceFingerPrint) :
    decodeFingerprint (encodeFingerprint fp) = some fp := by
  rcases fp with ⟨name, vol⟩
  simp [encodeFingerprint, decodeFingerprint, decodeStrField,
    JsonFields.lookup, decodeVolume_encodeVolume]

theorem bindBody_fst_dual (env : Env)
    (insts : List (String × ServiceInstance))
    (bnds : List (String × BindDetails)) (iID bID sv pl org spg : String)
    (bd : BindDetails) (fp : ServiceFingerPrint) :
    (bindBody env ⟨(iID, ⟨sv, pl, org, spg, .typed fp⟩) :: insts, bnds⟩
      iID bID bd).1 =
    (bindBody env ⟨(iID, ⟨sv, pl, org, spg,
      .generic (encodeFingerprint fp)⟩) :: insts, bnds⟩ iID bID bd).1 := by
  by_cases happ : bd.appGUID = ""
  · simp [bindBody, alookup, happ]
  · rcases hrp : bindRawParams bd with e5 | fs
    · simp [bindBody, alookup, happ, hrp, getFingerprint,
        decodeFingerprint_encodeFingerprint]
    · rcases hmode : evaluateMode fs with e6 | mode
      · simp [bindBody, alookup, happ, hrp, hmode, getFingerprint,
          decodeFingerprint_encodeFingerprint]
      · have hcs : Store.isBindingConflict ⟨(iID, ⟨sv, pl, org, spg,
            .generic (encodeFingerprint fp)⟩) :: insts, bnds⟩ bID bd =
            Store.isBindingConflict ⟨(iID, ⟨sv, pl, org, spg, .typed fp⟩) ::
            insts, bnds⟩ bID bd := rfl
        by_cases hconf : Store.isBindingConflict ⟨(iID, ⟨sv, pl, org, spg,
            .typed fp⟩) :: insts, bnds⟩ bID bd = true
        · simp [bindBody, alookup, happ, hrp, hmode, getFingerprint,
            decodeFingerprint_encodeFingerprint, hcs, hconf]
        · rcases hdn : env.driverNameResult with e7 | drv
          · simp [bindBody, alookup, happ, hrp, hmode, getFingerprint,
              decodeFingerprint_encodeFingerprint, hcs, hconf, hdn]
          · rcases hcpath : evaluateContainerPath fs iID with _ | cpath
            · simp [bindBody, alookup, happ, hrp, hmode, getFingerprint,
                decodeFingerprint_encodeFingerprint, hcs, hconf, hdn, hcpath]
            · rcases hid9 : evaluateId fs with _ | bps <;>
                simp [bindBody, alookup, happ, hrp, hmode, getFingerprint,
                  decodeFingerprint_encodeFingerprint, hcs, hconf, hdn,
                  hcpath, hid9]

/-- C5: fingerprint reconstruction succeeds on both supported stored
representations — a typed `ServiceFingerPrint` is returned unchanged, and a
generic document obtained by JSON round-tripping a typed fingerprint
re-decodes to the same typed value — and consequently Deprovision and Bind
return the same result and emit the same events whether the stored record
carries the typed or the generic representation. -/
theorem c5_fingerprint_dual_representation (fp : ServiceFingerPrint) :
    getFingerprint (.typed fp) = .ok fp ∧
    getFingerprint (.generic (encodeFingerprint fp)) = .ok fp ∧
    (∀ (env : Env) (probed : Bool) (insts : List (String × ServiceInstance))
      (bnds : List (String × BindDetails)) (iID sv pl org spg : String)
      (dID : DeprovisionDetails),
      ((deprovision env ⟨probed, ⟨(iID, ⟨sv, pl, org, spg, .typed fp⟩) :: insts,
          bnds⟩⟩ iID dID).1,
        (deprovision env ⟨probed, ⟨(iID, ⟨sv, pl, org, spg, .typed fp⟩) :: insts,
          bnds⟩⟩ iID dID).2.2) =
      ((deprovision env ⟨probed, ⟨(iID, ⟨sv, pl, org, spg,
          .generic (encodeFingerprint fp)⟩) :: insts, bnds⟩⟩ iID dID).1,
        (deprovision env ⟨probed, ⟨(iID, ⟨sv, pl, org, spg,
          .generic (encodeFingerprint fp)⟩) :: insts, bnds⟩⟩ iID dID).2.2)) ∧
    (∀ (env : Env) (probed : Bool) (insts : List (String × ServiceInstance))
      (bnds : List (String × BindDetails)) (iID bID sv pl org spg : String)
      (bd : BindDetails),
      ((bind env ⟨probed, ⟨(iID, ⟨sv, pl, org, spg, .typed fp⟩) :: insts,
          bnds⟩⟩ iID bID bd).1,
        (bind env ⟨probed, ⟨(iID, ⟨sv, pl, org, spg, .typed fp⟩) :: insts,
          bnds⟩⟩ iID bID bd).2.2) =
      ((bind env ⟨probed, ⟨(iID, ⟨sv, pl, org, spg,
          .generic (encodeFingerprint fp)⟩) :: insts, bnds⟩⟩ iID bID bd).1,
        (bind env ⟨probed, ⟨(iID, ⟨sv, pl, org, spg,
          .generic (encodeFingerprint fp)⟩) :: insts, bnds⟩⟩ iID bID bd).2.2)) := by
  refine ⟨rfl, ?_, ?_, ?_⟩
  · simp [getFingerprint, decodeFingerprint_encodeFingerprint]
  · intro env probed insts bnds iID sv pl org spg dID
    rcases env with ⟨ic, pr, cc, cv, dv, dn, sres⟩
    cases probed <;> rcases ic with e1 | u1 <;> rcases pr with e2 | u2 <;>
      simp [deprovision, probeController, alookup, getFingerprint,
        decodeFingerprint_encodeFingerprint, deprovisionBody, applySave] <;>
      (repeat' split) <;>
      simp_all [alookup, getFingerprint, decodeFingerprint_encodeFingerprint,
        deprovisionBody, applySave]
  · intro env probed insts bnds iID bID sv pl org spg bd
    have hr := bindBody_fst_dual env insts bnds iID bID sv pl org spg bd fp
    rcases hb1 : bindBody env ⟨(iID, ⟨sv, pl, org, spg, .typed fp⟩) :: insts,
      bnds⟩ iID bID bd with ⟨r1, stA⟩
    rcases hb2 : bindBody env ⟨(iID, ⟨sv, pl, org, spg,
      .generic (encodeFingerprint fp)⟩) :: insts, bnds⟩ iID bID bd
      with ⟨r2, stB⟩
    rw [hb1, hb2] at hr
    simp only at hr
    cases probed
    · rcases hic : env.identityClient with e | u
      · simp [bind, probeController, hic]
      · rcases hpr : env.probeResult with e2 | u2 <;>
          simp [bind, probeController, hic, hpr, hb1, hb2, hr]
    · simp [bind, probeController, hb1, hb2, hr]

-- Helper lemmas for the deferred-save pattern: when each operation's
-- locked section runs, and how the save outcome combines with the inner
-- result.

theorem exceptOk_exists_ok {eps alpha : Type} {x : Except eps alpha}
    (h : exceptOk x = true) : ∃ a, x = .ok a := by
  cases x
  · simp [exceptOk] at h
  · exact ⟨_, rfl⟩

theorem exceptOk_unit_eq {x : Except BrokerErr Unit} (h : exceptOk x = true) :
    x = .ok () := by
  cases x
  · simp [exceptOk] at h
  · rfl

theorem fingerprintOkAt_iff (st : Store) (i : String) :
    fingerprintOkAt st i = true ↔
      ∃ inst fpv, alookup st.instances i = some inst ∧
        getFingerprint inst.serviceFingerPrint = .ok fpv := by
  unfold fingerprintOkAt
  rcases h : alookup st.instances i with _ | inst
  · simp
  · constructor
    · intro hx
      obtain ⟨fpv, hfp⟩ := exceptOk_exists_ok hx
      exact ⟨inst, fpv, rfl, hfp⟩
    · rintro ⟨inst2, fpv, heq, hfp⟩
      cases heq
      simp [exceptOk, hfp]

theorem provision_save_iff (env : Env) (s : BrokerState) (i : String)
    (d : ProvisionDetails) :
    Event.save ∈ (provision env s i d).2.2 ↔
      provisionReachesLock env s d = true := by
  rcases env with ⟨ic, pr, cc, cv, dv, dn, sres⟩
  rcases s with ⟨probed, st⟩
  cases probed <;> rcases ic with e1 | u1 <;> rcases pr with e2 | u2 <;>
    simp [provision, probeController, provisionReachesLock, probeGatePasses,
      exceptOk] <;>
    (repeat' split) <;> simp_all

theorem deprovision_save_iff (env : Env) (s : BrokerState) (i : String)
    (d : DeprovisionDetails) :
    Event.save ∈ (deprovision env s i d).2.2 ↔
      deprovisionReachesLock env s i d = true := by
  rcases env with ⟨ic, pr, cc, cv, dv, dn, sres⟩
  rcases s with ⟨probed, st⟩
  cases probed <;> rcases ic with e1 | u1 <;> rcases pr with e2 | u2 <;>
    simp [deprovision, probeController, deprovisionReachesLock,
      probeGatePasses, exceptOk, fingerprintOkAt] <;>
    (repeat' split) <;> simp_all

theorem bind_save_iff (env : Env) (s : BrokerState) (i b : String)
    (d : BindDetails) :
    Event.save ∈ (bind env s i b d).2.2 ↔ probeGatePasses env s = true := by
  rcases env with ⟨ic, pr, cc, cv, dv, dn, sres⟩
  rcases s with ⟨probed, st⟩
  cases probed <;> rcases ic with e1 | u1 <;> rcases pr with e2 | u2 <;>
    simp [bind, probeController, probeGatePasses, exceptOk]

theorem unbind_save_iff (env : Env) (s : BrokerState) (i b : String)
    (d : UnbindDetails) :
    Event.save ∈ (unbind env s i b d).2.2 ↔ probeGatePasses env s = true := by
  rcases env with ⟨ic, pr, cc, cv, dv, dn, sres⟩
  rcases s with ⟨probed, st⟩
  cases probed <;> rcases ic with e1 | u1 <;> rcases pr with e2 | u2 <;>
    simp [unbind, probeController, probeGatePasses, exceptOk]

theorem provision_save_behavior (env : Env) (s : BrokerState) (i : String)
    (d : ProvisionDetails) (cfg : CreateVolumeConfig) (vol : CsiVolume)
    (se : BrokerErr)
    (hraw : d.rawParameters = .ok cfg)
    (hcv : env.createVolumeResult = .ok vol)
    (hrl : provisionReachesLock env s d = true) :
    (s.store.isInstanceConflict i ⟨d.serviceID, d.planID, d.organizationGUID,
        d.spaceGUID, .typed ⟨cfg.name, vol⟩⟩ = true →
      (provision env s i d).1 = .error .errInstanceAlreadyExists) ∧
    (s.store.isInstanceConflict i ⟨d.serviceID, d.planID, d.organizationGUID,
        d.spaceGUID, .typed ⟨cfg.name, vol⟩⟩ = false →
      (env.saveResult = .error se → (provision env s i d).1 = .error se) ∧
      (env.saveResult = .ok () → (provision env s i d).1 = .ok ⟨false⟩)) := by
  simp only [provisionReachesLock, hraw, Bool.and_eq_true] at hrl
  obtain ⟨⟨⟨hgate, hname, hcaps⟩, hcc⟩, hcv2⟩ := hrl
  simp only [Bool.not_eq_true', decide_eq_false_iff_not] at hname hcaps
  have hccE : env.controllerClient = .ok () := exceptOk_unit_eq hcc
  constructor
  · intro hconf
    simp [provision, probeController_of_gate env s d.serviceID hgate, hraw,
      if_neg hname, if_neg hcaps, hccE, hcv, provisionBody, hconf,
      applySave]
  · intro hconf
    constructor <;> intro hsv <;>
      simp [provision, probeController_of_gate env s d.serviceID hgate,
        hraw, if_neg hname, if_neg hcaps, hccE, hcv, provisionBody, hconf,
        applySave, hsv]

theorem deprovision_save_behavior (env : Env) (s : BrokerState) (i : String)
    (d : DeprovisionDetails) (se : BrokerErr)
    (hrl : deprovisionReachesLock env s i d = true) :
    (env.saveResult = .error se → (deprovision env s i d).1 = .error se) ∧
    (env.saveResult = .ok () →
      (deprovision env s i d).1 = .ok ⟨false, "deprovision"⟩) := by
  simp only [deprovisionReachesLock, Bool.and_eq_true] at hrl
  obtain ⟨⟨⟨⟨⟨⟨hgate, hi⟩, hp⟩, hsvc⟩, hfp⟩, hcc⟩, hdv⟩ := hrl
  simp only [Bool.not_eq_true', decide_eq_false_iff_not] at hi hp hsvc
  obtain ⟨inst, fpv, hlk, hfpE⟩ := (fingerprintOkAt_iff s.store i).mp hfp
  have hccE : env.controllerClient = .ok () := exceptOk_unit_eq hcc
  have hdvE : env.deleteVolumeResult = .ok () := exceptOk_unit_eq hdv
  constructor <;> intro hsv <;>
    simp [deprovision, probeController_of_gate env s d.serviceID hgate,
      if_neg hi, if_neg hp, if_neg hsvc, hlk, hfpE, hccE, hdvE,
      deprovisionBody, applySave, hsv]

theorem bind_save_behavior (env : Env) (s : BrokerState) (i b : String)
    (d : BindDetails) (se : BrokerErr)
    (hgate : probeGatePasses env s = true) :
    (∀ e, (bindBody env s.store i b d).1 = .error e →
      (bind env s i b d).1 = .error e) ∧
    (∀ r, (bindBody env s.store i b d).1 = .ok r →
      (env.saveResult = .error se → (bind env s i b d).1 = .error se) ∧
      (env.saveResult = .ok () → (bind env s i b d).1 = .ok r)) := by
  rcases hb : bindBody env s.store i b d with ⟨r0, st0⟩
  constructor
  · intro e he
    simp only at he
    simp [bind, probeController_of_gate env s d.serviceID hgate, hb, he,
      applySave]
  · intro r hr
    simp only at hr
    constructor <;> intro hsv <;>
      simp [bind, probeController_of_gate env s d.serviceID hgate, hb, hr,
        applySave, hsv]

theorem unbind_save_behavior (env : Env) (s : BrokerState) (i b : String)
    (d : UnbindDetails) (se : BrokerErr)
    (hgate : probeGatePasses env s = true) :
    (∀ e, (unbindBody s.store i b).1 = .error e →
      (unbind env s i b d).1 = .error e) ∧
    (∀ r, (unbindBody s.store i b).1 = .ok r →
      (env.saveResult = .error se → (unbind env s i b d).1 = .error se) ∧
      (env.saveResult = .ok () → (unbind env s i b d).1 = .ok r)) := by
  rcases hb : unbindBody s.store i b with ⟨r0, st0⟩
  constructor
  · intro e he
    simp only at he
    simp [unbind, probeController_of_gate env s d.serviceID hgate, hb, he,
      applySave]
  · intro r hr
    simp only at hr
    constructor <;> intro hsv <;>
      simp [unbind, probeController_of_gate env s d.serviceID hgate, hb, hr,
        applySave, hsv]

/-- C3: for each lifecycle operation, the deferred Save runs exactly when
the locked mutate-and-persist section is entered — on every exit path of
that section, success or failure (the save event occurs iff the explicit
reaches-lock condition holds, which does not depend on whether the in-lock
logic succeeds) — and the returned error combines as the Go defer does:
when the in-lock logic (the operation body) succeeds, a Save failure is
surfaced as the operation's error, and when the operation already failed,
the original error is returned in preference to the Save outcome. -/
theorem c3_save_on_every_exit (env : Env) (s : BrokerState) :
    (∀ i d, Event.save ∈ (provision env s i d).2.2 ↔
      provisionReachesLock env s d = true) ∧
    (∀ i d, Event.save ∈ (deprovision env s i d).2.2 ↔
      deprovisionReachesLock env s i d = true) ∧
    (∀ i b d, Event.save ∈ (bind env s i b d).2.2 ↔
      probeGatePasses env s = true) ∧
    (∀ i b d, Event.save ∈ (unbind env s i b d).2.2 ↔
      probeGatePasses env s = true) ∧
    (∀ i d cfg vol se, d.rawParameters = .ok cfg →
      env.createVolumeResult = .ok vol →
      provisionReachesLock env s d = true →
      (s.store.isInstanceConflict i ⟨d.serviceID, d.planID,
          d.organizationGUID, d.spaceGUID, .typed ⟨cfg.name, vol⟩⟩ = true →
        (provision env s i d).1 = .error .errInstanceAlreadyExists) ∧
      (s.store.isInstanceConflict i ⟨d.serviceID, d.planID,
          d.organizationGUID, d.spaceGUID, .typed ⟨cfg.name, vol⟩⟩ = false →
        (env.saveResult = .error se → (provision env s i d).1 = .error se) ∧
        (env.saveResult = .ok () → (provision env s i d).1 = .ok ⟨false⟩))) ∧
    (∀ i d se, deprovisionReachesLock env s i d = true →
      (env.saveResult = .error se → (deprovision env s i d).1 = .error se) ∧
      (env.saveResult = .ok () →
        (deprovision env s i d).1 = .ok ⟨false, "deprovision"⟩)) ∧
    (∀ i b d se, probeGatePasses env s = true →
      (∀ e, (bindBody env s.store i b d).1 = .error e →
        (bind env s i b d).1 = .error e) ∧
      (∀ r, (bindBody env s.store i b d).1 = .ok r →
        (env.saveResult = .error se → (bind env s i b d).1 = .error se) ∧
        (env.saveResult = .ok () → (bind env s i b d).1 = .ok r))) ∧
    (∀ i b d se, probeGatePasses env s = true →
      (∀ e, (unbindBody s.store i b).1 = .error e →
        (unbind env s i b d).1 = .error e) ∧
      (∀ r, (unbindBody s.store i b).1 = .ok r →
        (env.saveResult = .error se → (unbind env s i b d).1 = .error se) ∧
        (env.saveResult = .ok () → (unbind env s i b d).1 = .ok r))) :=
  ⟨fun i d => provision_save_iff env s i d,
    fun i d => deprovision_save_iff env s i d,
    fun i b d => bind_save_iff env s i b d,
    fun i b d => unbind_save_iff env s i b d,
    fun i d cfg vol se hraw hcv hrl =>
      provision_save_behavior env s i d cfg vol se hraw hcv hrl,
    fun i d se hrl => deprovision_save_behavior env s i d se hrl,
    fun i b d se hg => bind_save_behavior env s i b d se hg,
    fun i b d se hg => unbind_save_behavior env s i b d se hg⟩

/-- C3 (witness): with a failing Save, a Bind whose in-lock logic fails
(absent instance) still emits the save event and returns the in-lock error
in preference to the Save error, while a Provision whose in-lock logic
succeeds surfaces the Save error as its result. -/
theorem c3_save_on_every_exit_witness :
    Event.save ∈ (bind
      ⟨.ok (), .ok (), .ok (), .ok ⟨"cv", []⟩, .ok (), .ok "d",
        .error (.external "save failed")⟩
      ⟨true, ⟨[], []⟩⟩ "i" "b" ⟨"sv", "p", "app", none⟩).2.2 ∧
    (bind
      ⟨.ok (), .ok (), .ok (), .ok ⟨"cv", []⟩, .ok (), .ok "d",
        .error (.external "save failed")⟩
      ⟨true, ⟨[], []⟩⟩ "i" "b" ⟨"sv", "p", "app", none⟩).1 =
      .error .errInstanceDoesNotExist ∧
    (provision
      ⟨.ok (), .ok (), .ok (), .ok ⟨"cv", []⟩, .ok (), .ok "d",
        .error (.external "save failed")⟩
      ⟨true, ⟨[], []⟩⟩ "i" ⟨"sv", "p", "o", "sp", .ok ⟨"n", 1⟩⟩).1 =
      .error (.external "save failed") := by
  refine ⟨?_, ?_, ?_⟩
  · exact ((c3_save_on_every_exit
      ⟨.ok (), .ok (), .ok (), .ok ⟨"cv", []⟩, .ok (), .ok "d",
        .error (.external "save failed")⟩
      ⟨true, ⟨[], []⟩⟩).2.2.1 "i" "b" ⟨"sv", "p", "app", none⟩).mpr (by decide)
  · exact (((c3_save_on_every_exit
      ⟨.ok (), .ok (), .ok (), .ok ⟨"cv", []⟩, .ok (), .ok "d",
        .error (.external "save failed")⟩
      ⟨true, ⟨[], []⟩⟩).2.2.2.2.2.2.1 "i" "b" ⟨"sv", "p", "app", none⟩
      (.external "save failed") (by decide)).1 .errInstanceDoesNotExist
      (by decide))
  · exact ((((c3_save_on_every_exit
      ⟨.ok (), .ok (), .ok (), .ok ⟨"cv", []⟩, .ok (), .ok "d",
        .error (.external "save failed")⟩
      ⟨true, ⟨[], []⟩⟩).2.2.2.2.1 "i" ⟨"sv", "p", "o", "sp", .ok ⟨"n", 1⟩⟩
      ⟨"n", 1⟩ ⟨"cv", []⟩ (.external "save failed") rfl rfl
      (by decide)).2 (by decide)).1 rfl)

/-- C6: every successful Bind returns a binding whose credentials value is
present (non-null, the empty credentials object) and exactly one
volume-mount descriptor, whose fields are the derived container path, the
derived mode, the registry driver name, device type "shared", the
synthesized volume handle `instanceID ++ "-volume"`, and a device carrying
the plugin volume-id, the plugin context attributes and the derived
uid/gid binding parameters. -/
theorem c6_bind_result_shape (env : Env) (s : BrokerState)
    (instanceID bindingID : String) (details : BindDetails)
    (inst : ServiceInstance) (fp : ServiceFingerPrint) (params : JsonFields)
    (mode driverName containerDir : String)
    (bindingParams : Option (List (String × String)))
    (hgate : probeGatePasses env s = true)
    (hlk : alookup s.store.instances instanceID = some inst)
    (happ : details.appGUID ≠ "")
    (hfp : getFingerprint inst.serviceFingerPrint = .ok fp)
    (hraw : bindRawParams details = .ok params)
    (hmode : evaluateMode params = .ok mode)
    (hconf : s.store.isBindingConflict bindingID details = false)
    (hdn : env.driverNameResult = .ok driverName)
    (hcp : evaluateContainerPath params instanceID = some containerDir)
    (hid : evaluateId params = some bindingParams)
    (hsave : env.saveResult = .ok ()) :
    (bind env s instanceID bindingID details).1 =
      .ok ⟨some (), [⟨containerDir, mode, driverName, "shared",
        ⟨instanceID ++ "-volume", fp.volume.volumeId,
          fp.volume.volumeContext, bindingParams⟩⟩]⟩ := by
  simp [bind, probeController_of_gate env s details.serviceID hgate, bindBody,
    hlk, if_neg happ, hfp, hraw, hmode, hconf, hdn, hcp, hid, applySave,
    hsave]

/-- C6 (witness): a concrete successful Bind with no raw parameters yields
non-null empty credentials and the single expected volume mount. -/
theorem c6_bind_result_shape_witness :
    (bind ⟨.ok (), .ok (), .ok (), .ok ⟨"cv", []⟩, .ok (), .ok "drv", .ok ()⟩
      ⟨true, ⟨[("inst1", ⟨"sv", "p", "o", "sp",
        .typed ⟨"n", ⟨"vid", [("a", "b")]⟩⟩⟩)], []⟩⟩
      "inst1" "b1" ⟨"sv", "p", "app", none⟩).1 =
      .ok ⟨some (), [⟨"/var/vcap/data/inst1", "rw", "drv", "shared",
        ⟨"inst1-volume", "vid", [("a", "b")], none⟩⟩]⟩ :=
  c6_bind_result_shape
    ⟨.ok (), .ok (), .ok (), .ok ⟨"cv", []⟩, .ok (), .ok "drv", .ok ()⟩
    ⟨true, ⟨[("inst1", ⟨"sv", "p", "o", "sp",
      .typed ⟨"n", ⟨"vid", [("a", "b")]⟩⟩⟩)], []⟩⟩
    "inst1" "b1" ⟨"sv", "p", "app", none⟩
    ⟨"sv", "p", "o", "sp", .typed ⟨"n", ⟨"vid", [("a", "b")]⟩⟩⟩
    ⟨"n", ⟨"vid", [("a", "b")]⟩⟩ .nil "rw" "drv" "/var/vcap/data/inst1" none
    (by decide) (by decide) (by decide) rfl rfl rfl (by decide) rfl
    (by decide) rfl rfl

/-- C7: mode evaluation over a raw bind-parameter map — a "readonly" key
holding boolean true gives "r", boolean false gives "rw", an absent key
defaults to "rw", and a present non-boolean value fails with the
invalid-parameters error. -/
theorem c7_evaluate_mode (params : JsonFields) :
    (params.lookup "readonly" = some (.boolean true) →
      evaluateMode params = .ok "r") ∧
    (params.lookup "readonly" = some (.boolean false) →
      evaluateMode params = .ok "rw") ∧
    (params.lookup "readonly" = none → evaluateMode params = .ok "rw") ∧
    (∀ v, params.lookup "readonly" = some v → (∀ b, v ≠ .boolean b) →
      evaluateMode params = .error .errRawParamsInvalid) := by
  refine ⟨?_, ?_, ?_, ?_⟩
  · intro h
    simp [evaluateMode, h, readOnlyToMode]
  · intro h
    simp [evaluateMode, h, readOnlyToMode]
  · intro h
    simp [evaluateMode, h]
  · intro v h hnb
    cases v <;> simp [evaluateMode, h]
    exact absurd rfl (hnb _)

/-- C7 (witness): concrete mode evaluations — readonly true gives "r",
readonly as the wrong-typed string "yes" fails validation, and an absent
key gives "rw". -/
theorem c7_evaluate_mode_witness :
    evaluateMode (.cons "readonly" (.boolean true) .nil) = .ok "r" ∧
    evaluateMode (.cons "readonly" (.str "yes") .nil) =
      .error .errRawParamsInvalid ∧
    evaluateMode .nil = .ok "rw" :=
  ⟨(c7_evaluate_mode (.cons "readonly" (.boolean true) .nil)).1 rfl,
    (c7_evaluate_mode (.cons "readonly" (.str "yes") .nil)).2.2.2
      (.str "yes") rfl (by intro b; simp),
    (c7_evaluate_mode .nil).2.2.1 rfl⟩

/-- C8 (counterexample): with "mount" present as the number 5 (non-empty,
non-string), evaluateContainerPath panics (none) instead of producing the
claimed default joined path, refuting "otherwise is the fixed default base
directory joined with the instance identifier". -/
theorem c8_container_path_counterexample :
    evaluateContainerPath (.cons "mount" (.num 5) .nil) "iid" = none ∧
    pathJoin DefaultContainerPath "iid" = "/var/vcap/data/iid" ∧
    evaluateContainerPath (.cons "mount" (.num 5) .nil) "iid" ≠
      some "/var/vcap/data/iid" := by
  refine ⟨?_, ?_, ?_⟩ <;> decide

/-- C8 (amended): the container path is the "mount" value verbatim when it
is present as a non-empty string; the default base directory joined with
the instance identifier when the parameter is absent or present as the
empty string; and a present non-string value makes the evaluation panic
through the unchecked type assertion. -/
theorem c8_evaluate_container_path (params : JsonFields) (volId m : String) :
    (params.lookup "mount" = some (.str m) → m ≠ "" →
      evaluateContainerPath params volId = some m) ∧
    (params.lookup "mount" = none →
      evaluateContainerPath params volId =
        some (pathJoin DefaultContainerPath volId)) ∧
    (params.lookup "mount" = some (.str "") →
      evaluateContainerPath params volId =
        some (pathJoin DefaultContainerPath volId)) ∧
    (∀ v, params.lookup "mount" = some v → (∀ str2, v ≠ .str str2) →
      evaluateContainerPath params volId = none) := by
  refine ⟨?_, ?_, ?_, ?_⟩
  · intro h hm
    simp [evaluateContainerPath, h, hm]
  · intro h
    simp [evaluateContainerPath, h]
  · intro h
    simp [evaluateContainerPath, h]
  · intro v h hnb
    cases v <;> simp [evaluateContainerPath, h]
    exact absurd rfl (hnb _)

/-- C8 (witness): binding parameters {"mount": "/custom"} give container
path "/custom"; no "mount" key gives "/var/vcap/data/inst1". -/
theorem c8_evaluate_container_path_witness :
    evaluateContainerPath (.cons "mount" (.str "/custom") .nil) "inst1" =
      some "/custom" ∧
    evaluateContainerPath .nil "inst1" = some "/var/vcap/data/inst1" :=
  ⟨(c8_evaluate_container_path (.cons "mount" (.str "/custom") .nil) "inst1"
      "/custom").1 rfl (by decide),
    (c8_evaluate_container_path .nil "inst1" "").2.1 rfl⟩

/-- C10: Bind's pure parameter evaluation is not total over JSON parameter
maps reachable at the public Bind interface — a present non-string "mount"
makes evaluateContainerPath panic, "uid" and "gid" both present with a
non-string "uid" make evaluateId panic, and the full Bind operation on
such inputs yields the panic outcome rather than a validation error. -/
theorem c10_bind_parameter_panics :
    evaluateContainerPath (.cons "mount" (.num 5) .nil) "inst1" = none ∧
    evaluateId (.cons "uid" (.num 1) (.cons "gid" (.str "g") .nil)) = none ∧
    (bind ⟨.ok (), .ok (), .ok (), .ok ⟨"cv", []⟩, .ok (), .ok "drv", .ok ()⟩
      ⟨true, ⟨[("inst1", ⟨"sv", "p", "o", "sp",
        .typed ⟨"n", ⟨"vid", []⟩⟩⟩)], []⟩⟩
      "inst1" "b1" ⟨"sv", "p", "app",
        some (.obj (.cons "mount" (.num 5) .nil))⟩).1 = .panicked ∧
    (bind ⟨.ok (), .ok (), .ok (), .ok ⟨"cv", []⟩, .ok (), .ok "drv", .ok ()⟩
      ⟨true, ⟨[("inst1", ⟨"sv", "p", "o", "sp",
        .typed ⟨"n", ⟨"vid", []⟩⟩⟩)], []⟩⟩
      "inst1" "b1" ⟨"sv", "p", "app",
        some (.obj (.cons "uid" (.num 1)
          (.cons "gid" (.str "g") .nil)))⟩).1 = .panicked := by
  refine ⟨?_, ?_, ?_, ?_⟩ <;> decide

end CsiBroker
